import Mathlib

/-
Shallow embedding of the African Nations League tournament application.
The React client under src/ is translated directly; the Python backend
(match engine, bracket initialization, live-stream generator) is not part
of the repository snapshot, so the definitions the claims need from it are
modelled from the specification and marked as such in their doc comments.
-/

namespace ANL

/-- The apostrophe character used by the source template strings (minute marks). -/
def tick : Char := Char.ofNat 39

/-- A roster entry as built by TeamRegistration.js: name, position code
(GK, DF, MD, AT) and the captain flag. -/
structure Player where
  name : String
  naturalPosition : String
  isCaptain : Bool
deriving DecidableEq

instance : Inhabited Player := ⟨⟨"", "", false⟩⟩

/-- A registered team as the client receives it from GET /teams and as the
engine consumes it: identity, country, staff, a scalar rating and the roster. -/
structure Team where
  id : String
  country : String
  manager : String
  representative : String
  email : String
  rating : Nat
  players : List Player
deriving DecidableEq

instance : Inhabited Team := ⟨⟨"", "", "", "", "", 0, []⟩⟩

/-- One slot of the client-side bracket JSON: optional team references, the
optional winner and an optional score string. -/
structure BracketMatch where
  team1 : Option Team
  team2 : Option Team
  winner : Option Team
  score : Option String
deriving DecidableEq

/-- The client-side bracket JSON from GET /tournament/bracket. -/
structure ClientBracket where
  status : String
  quarterFinals : List BracketMatch
  semiFinals : List BracketMatch
  final : Option BracketMatch
deriving DecidableEq

/-! ### AdminPanel component (AdminPanel.js) -/

namespace AdminPanel

/-- The controlled login form fields. -/
structure Credentials where
  username : String
  password : String
deriving DecidableEq

/-- Authentication-relevant component state plus the localStorage cell under
the key adminAuthenticated (the only persistent part). -/
structure AuthState where
  isAuthenticated : Bool
  errorMsg : String
  storage : Option String
deriving DecidableEq

/-- The useState initializer: localStorage.getItem(adminAuthenticated) === true. -/
def initialIsAuthenticated (storage : Option String) : Bool :=
  storage == some "true"

/-- handleLogin: on exact credentials admin / admin123 set the flag, persist it
and clear the error; otherwise only set the error message. -/
def handleLogin (creds : Credentials) (st : AuthState) : AuthState :=
  if creds.username == "admin" && creds.password == "admin123" then
    { isAuthenticated := true, errorMsg := "", storage := some "true" }
  else
    { st with errorMsg := "Invalid credentials" }

/-- handleLogout: clear the flag and remove the localStorage entry. -/
def handleLogout (st : AuthState) : AuthState :=
  { st with isAuthenticated := false, storage := none }

/-- AdminPanel: const canStartTournament = teams.length >= 8. -/
def canStartTournament (teams : List Team) : Bool :=
  decide (8 ≤ teams.length)

/-- AdminPanel: const tournamentActive = bracket && bracket.status === active. -/
def tournamentActive (bracket : Option ClientBracket) : Bool :=
  match bracket with
  | none => false
  | some b => b.status == "active"

/-- The Start Tournament button is rendered exactly when
canStartTournament && !tournamentActive. -/
def startTournamentOffered (teams : List Team) (bracket : Option ClientBracket) : Bool :=
  canStartTournament teams && !tournamentActive bracket

/-- The guard under which AdminPanel renders Quick Sim / Live Sim buttons for a
bracket slot: match?.team1 && match?.team2 && !match?.winner. -/
def adminMatchActionable (m : BracketMatch) : Bool :=
  m.team1.isSome && m.team2.isSome && m.winner.isNone

end AdminPanel

/-! ### LiveMatchSimulation component and the stream wire contract -/

/-- A goal-scorer entry of a completed match payload. -/
structure GoalScorerEntry where
  minute : Nat
  scorer : String
  team : String
deriving DecidableEq

/-- The match_complete payload / saved match result as the client handles it. -/
structure ClientMatchResult where
  team1 : Team
  team2 : Team
  team1_goals : Nat
  team2_goals : Nat
  score : String
  winner : Team
  goal_scorers : List GoalScorerEntry
  penalties : Bool
deriving DecidableEq

/-- A running score as carried by goal stream events. -/
structure StreamScore where
  team1 : Nat
  team2 : Nat
deriving DecidableEq

/-- The typed stream events of the live-match wire contract (section 6 of the
spec); `other` stands for any unrecognized type, which the client ignores. -/
inductive StreamEvent
  | matchStart
  | timeUpdate (minute : Nat)
  | commentary (minute : Nat) (text : String) (commentary_type : Option String)
  | goal (minute : Nat) (team : String) (team_id : String) (scorer : String)
      (score : StreamScore)
  | matchComplete (result : ClientMatchResult)
  | error (msg : String)
  | other
deriving DecidableEq

namespace LiveMatchSimulation

/-- A commentary feed entry as built by handleStreamEvent. -/
structure CommentaryItem where
  minute : Nat
  text : String
  kind : String
deriving DecidableEq

/-- A match-events entry as built by handleStreamEvent for a goal. -/
structure MatchEventRecord where
  minute : Nat
  kind : String
  team : String
  player : String
  teamId : String
deriving DecidableEq

/-- The component state of LiveMatchSimulation touched by the stream handler. -/
structure LiveState where
  matchTime : Nat
  isPlaying : Bool
  commentary : List CommentaryItem
  score : StreamScore
  events : List MatchEventRecord
  matchComplete : Bool
  errorMsg : Option String
deriving DecidableEq

/-- data.commentary_type || commentary : the JS fallback also replaces the
empty string, which is falsy. -/
def commentaryKind : Option String → String
  | some s => if s == "" then "commentary" else s
  | none => "commentary"

/-- handleStreamEvent: the switch over data.type. Sound playback and the
deferred onMatchComplete callback are external effects outside this state. -/
def handleStreamEvent (st : LiveState) (e : StreamEvent) : LiveState :=
  match e with
  | .matchStart => st
  | .timeUpdate m => { st with matchTime := m }
  | .commentary m text ct =>
      { st with commentary := st.commentary ++ [⟨m, text, commentaryKind ct⟩] }
  | .goal m team teamId scorer sc =>
      { st with score := sc, events := st.events ++ [⟨m, "goal", team, scorer, teamId⟩] }
  | .matchComplete _ => { st with matchComplete := true, isPlaying := false }
  | .error msg => { st with errorMsg := some msg, isPlaying := false }
  | .other => st

/-- connectToLiveStream entry: setError(null); setIsPlaying(true). -/
def connectToLiveStreamStart (st : LiveState) : LiveState :=
  { st with errorMsg := none, isPlaying := true }

/-- formatTime: minutes <= 90 renders m apostrophe, otherwise 90+k apostrophe. -/
def formatTime (minutes : Nat) : String :=
  if minutes ≤ 90 then (toString minutes).push tick
  else ("90+" ++ toString (minutes - 90)).push tick

end LiveMatchSimulation

/-! ### AdminPanel live-match handlers (save requests as explicit outputs) -/

namespace AdminPanel

/-- The match selected for live simulation. -/
structure SelectedMatch where
  team1 : Team
  team2 : Team
  matchType : String
deriving DecidableEq

/-- The live-simulation display state of AdminPanel. -/
structure LivePanelState where
  showLiveMatch : Bool
  selectedMatch : Option SelectedMatch
deriving DecidableEq

/-- The JSON body POSTed to /matches/save-live-result. -/
structure SaveLiveResultBody where
  team1 : Team
  team2 : Team
  team1_goals : Nat
  team2_goals : Nat
  score : String
  winner : Team
  goal_scorers : List GoalScorerEntry
  match_type : String
deriving DecidableEq

/-- The HTTP requests the live-match handlers can issue. -/
inductive ApiRequest
  | saveLiveResult (body : SaveLiveResultBody)
deriving DecidableEq

/-- The handler reads selectedMatch.matchType; a missing selectedMatch is a
crash in the source, rendered here as the empty string. -/
def matchTypeOf : Option SelectedMatch → String
  | some sm => sm.matchType
  | none => ""

/-- handleCancelLiveMatch: only clears the display state; no request is made. -/
def handleCancelLiveMatch (_st : LivePanelState) : LivePanelState × List ApiRequest :=
  ({ showLiveMatch := false, selectedMatch := none }, [])

/-- handleLiveMatchComplete: clears the display state and POSTs the result to
/matches/save-live-result. -/
def handleLiveMatchComplete (matchResult : ClientMatchResult) (st : LivePanelState) :
    LivePanelState × List ApiRequest :=
  ({ showLiveMatch := false, selectedMatch := none },
   [ApiRequest.saveLiveResult
      { team1 := matchResult.team1
        team2 := matchResult.team2
        team1_goals := matchResult.team1_goals
        team2_goals := matchResult.team2_goals
        score := matchResult.score
        winner := matchResult.winner
        goal_scorers := matchResult.goal_scorers
        match_type := matchTypeOf st.selectedMatch }])

end AdminPanel

/-! ### TeamRegistration component (TeamRegistration.js) -/

namespace TeamRegistration

/-- A character the regex class of non-whitespace accepts. -/
def nonSpace (c : Char) : Bool := !c.isWhitespace

/-- The email test of validateForm: whether the string contains a substring
matching one-or-more non-space, an at sign, one-or-more non-space, a dot,
one-or-more non-space (the regex used with .test in the source). The search
succeeds exactly when some at sign at index a and some dot at index b > a+1
have a non-space character right before a, only non-space characters strictly
between a and b, and a non-space character right after b. -/
def emailTest (s : String) : Bool :=
  let cs := s.data
  let n := cs.length
  (List.range n).any fun a =>
    (List.range n).any fun b =>
      decide (0 < a) && decide (a + 1 < b) && decide (b + 1 < n) &&
      (cs.getD a ' ' == '@') && (cs.getD b ' ' == '.') &&
      nonSpace (cs.getD (a - 1) ' ') && nonSpace (cs.getD (b + 1) ' ') &&
      ((List.range (b - a - 1)).all fun k => nonSpace (cs.getD (a + 1 + k) ' '))

/-- The registration form data the component submits. -/
structure RegistrationForm where
  country : String
  manager : String
  representative : String
  email : String
  players : List Player
deriving DecidableEq

/-- validateForm: the submission is valid exactly when no entry is put into
newErrors — nonempty country, manager, representative, an email passing the
regex test, exactly 23 players and exactly one captain. -/
def validateForm (f : RegistrationForm) : Bool :=
  (f.country != "") && (f.manager != "") && (f.representative != "") &&
  (f.email != "") && emailTest f.email &&
  (f.players.length == 23) &&
  ((f.players.filter (·.isCaptain)).length == 1)

/-- handleSubmit: returns early unless validateForm passes, otherwise POSTs the
form data to /teams; the posted payload is the return value. -/
def handleSubmit (f : RegistrationForm) : Option RegistrationForm :=
  if validateForm f then some f else none

end TeamRegistration

/-! ### TournamentBracket component (TournamentBracket.js, renderMatch) -/

namespace TournamentBracket

/-- renderMatch: const hasTeams = match.team1 && match.team2. -/
def hasTeams (m : BracketMatch) : Bool := m.team1.isSome && m.team2.isSome

/-- renderMatch: const isCompleted = match.winner (truthiness of the object). -/
def isCompleted (m : BracketMatch) : Bool := m.winner.isSome

/-- renderMatch: const isPlayable = hasTeams && !isCompleted. -/
def isPlayable (m : BracketMatch) : Bool := hasTeams m && !isCompleted m

end TournamentBracket

/-! ### Match Simulation & Bracket Progression Engine.
The Python backend holding this engine is not part of the repository
snapshot; the definitions below are modelled from the specification
(sections 3, 4.2, 4.3 and 4.4). -/

namespace Engine

/-- Modelled from the spec: the explicit seeded random source the spec requires
the engine to thread instead of an ambient RNG, here a 32-bit linear
congruential generator. -/
def lcg (s : Nat) : Nat := (1664525 * s + 1013904223) % 4294967296

/-- Modelled from the spec: advance the RNG and draw a value below n. -/
def randBelow (s n : Nat) : Nat × Nat :=
  let s2 := lcg s
  (s2, s2 % n)

/-- Modelled from the spec: a goal event of the simulator, ordered by minute
with ties broken by emission order. -/
structure GoalEvent where
  minute : Nat
  scoringTeamId : String
  scorerName : String
deriving DecidableEq

/-- The running simulation state: RNG, both goal counts and the emitted events. -/
structure SimState where
  rng : Nat
  g1 : Nat
  g2 : Nat
  events : List GoalEvent
deriving DecidableEq

/-- Modelled from the spec: goalkeepers are excluded from the scoring pool. -/
def nonGoalkeepers (t : Team) : List Player :=
  t.players.filter (fun p => p.naturalPosition != "GK")

/-- Modelled from the spec: select a scorer uniformly from the non-goalkeeper
roster. -/
def drawScorer (t : Team) (s : Nat) : Nat × String :=
  let pool := nonGoalkeepers t
  let (s2, k) := randBelow s pool.length
  (s2, (pool.getD k default).name)

/-- Modelled from the spec: one simulated minute — an independent Bernoulli
trial per team with probability rating over scale times the combined rating
pool (scale 30 in regulation gives an expected total of 3 goals per match,
inside the 2 to 4 band; scale 45 in extra time lowers the intensity). -/
def simMinute (t1 t2 : Team) (scale minute : Nat) (st : SimState) : SimState :=
  let total := t1.rating + t2.rating
  let (sA, v1) := randBelow st.rng (scale * total)
  let st1 :=
    if v1 < t1.rating then
      let (sB, name) := drawScorer t1 sA
      { rng := sB, g1 := st.g1 + 1, g2 := st.g2,
        events := st.events ++ [⟨minute, t1.id, name⟩] }
    else { st with rng := sA }
  let (sC, v2) := randBelow st1.rng (scale * total)
  if v2 < t2.rating then
    let (sD, name) := drawScorer t2 sC
    { rng := sD, g1 := st1.g1, g2 := st1.g2 + 1,
      events := st1.events ++ [⟨minute, t2.id, name⟩] }
  else { st1 with rng := sC }

/-- Modelled from the spec: play a list of minutes at a given intensity. -/
def playPhase (t1 t2 : Team) (scale : Nat) (minutes : List Nat) (st : SimState) : SimState :=
  minutes.foldl (fun acc m => simMinute t1 t2 scale m acc) st

/-- Modelled from the spec: each penalty kick succeeds with a fixed high
probability (three in four) independent of team rating. -/
def kickSuccess (s : Nat) : Nat × Bool :=
  let (s2, v) := randBelow s 4
  (s2, decide (v < 3))

/-- Modelled from the spec: one shootout round, one kick per team. -/
def penRound : Nat × Nat × Nat → Nat × Nat × Nat
  | (s, p1, p2) =>
    let (sA, a) := kickSuccess s
    let (sB, b) := kickSuccess sA
    (sB, p1 + a.toNat, p2 + b.toNat)

/-- Modelled from the spec: the five initial shootout rounds. -/
def initialRounds (s : Nat) : Nat × Nat × Nat :=
  (List.range 5).foldl (fun acc _ => penRound acc) (s, 0, 0)

/-- Modelled from the spec: sudden-death rounds continue until one side leads
after an equal number of kicks; the bounded depth ends, if ever reached, with a
single deciding coin kick so the shootout always produces a leader. -/
def suddenDeath : Nat → Nat → Nat → Nat → Nat × Nat
  | 0, s, p1, p2 =>
    if (randBelow s 2).2 == 0 then (p1 + 1, p2) else (p1, p2 + 1)
  | fuel + 1, s, p1, p2 =>
    let a := (kickSuccess s).2
    let sA := (kickSuccess s).1
    let b := (kickSuccess sA).2
    let sB := (kickSuccess sA).1
    if a == b then suddenDeath fuel sB (p1 + a.toNat) (p2 + b.toNat)
    else (p1 + a.toNat, p2 + b.toNat)

/-- Modelled from the spec: the full penalty shootout. -/
def shootout (s : Nat) : Nat × Nat :=
  if (initialRounds s).2.1 = (initialRounds s).2.2 then
    suddenDeath 100 (initialRounds s).1 (initialRounds s).2.1 (initialRounds s).2.2
  else ((initialRounds s).2.1, (initialRounds s).2.2)

/-- Modelled from the spec: the MatchResult record — full-time goal counts, the
ordered goal events, the winner (never null), and the penalty data. -/
structure MatchResult where
  team1 : Team
  team2 : Team
  team1Goals : Nat
  team2Goals : Nat
  goalEvents : List GoalEvent
  winnerTeamId : String
  wentToPenalties : Bool
  penaltyScore : Option (Nat × Nat)
deriving DecidableEq

/-- Regulation minutes 1..90. -/
def regulationMinutes : List Nat := List.range' 1 90

/-- Extra-time minutes 91..120. -/
def extraTimeMinutes : List Nat := List.range' 91 30

/-- Build the MatchResult of a match decided on goals: the higher-scoring
team wins, no penalties. -/
def finishOnGoals (team1 team2 : Team) (st : SimState) : MatchResult :=
  ⟨team1, team2, st.g1, st.g2, st.events,
   if st.g2 < st.g1 then team1.id else team2.id, false, none⟩

/-- Build the MatchResult of a match resolved by the penalty shootout: the
winner is read off the penalty score. -/
def finishOnPenalties (team1 team2 : Team) (st : SimState) : MatchResult :=
  ⟨team1, team2, st.g1, st.g2, st.events,
   if (shootout st.rng).2 < (shootout st.rng).1 then team1.id else team2.id,
   true, some (shootout st.rng)⟩

/-- The simulation state after the 90 regulation minutes. -/
def afterRegulation (team1 team2 : Team) (rng_seed : Nat) : SimState :=
  playPhase team1 team2 30 regulationMinutes ⟨rng_seed, 0, 0, []⟩

/-- The simulation state after the 30 extra minutes at reduced intensity. -/
def afterExtraTime (team1 team2 : Team) (rng_seed : Nat) : SimState :=
  playPhase team1 team2 45 extraTimeMinutes (afterRegulation team1 team2 rng_seed)

/-- Modelled from the spec: simulate(team1, team2, rng_seed) — 90 regulation
minutes, 30 extra minutes at reduced intensity if level, then a penalty
shootout if still level; the winner is the higher-scoring team or the penalty
winner. -/
def simulate (team1 team2 : Team) (rng_seed : Nat) : MatchResult :=
  if (afterRegulation team1 team2 rng_seed).g1 = (afterRegulation team1 team2 rng_seed).g2 then
    if (afterExtraTime team1 team2 rng_seed).g1 = (afterExtraTime team1 team2 rng_seed).g2 then
      finishOnPenalties team1 team2 (afterExtraTime team1 team2 rng_seed)
    else
      finishOnGoals team1 team2 (afterExtraTime team1 team2 rng_seed)
  else
    finishOnGoals team1 team2 (afterRegulation team1 team2 rng_seed)

/-- Modelled from the spec: the bracket lifecycle states. -/
inductive BracketStatus
  | notStarted
  | active
  | completed
deriving DecidableEq

/-- Modelled from the spec: the engine-side bracket as far as initialization
touches it — the lifecycle status and the four quarter-final pairings. -/
structure EngineBracket where
  status : BracketStatus
  qf : List (Team × Team)
deriving DecidableEq

/-- Modelled from the spec: seeded selection shuffle used for the random
pairing, removing a random element at a time. -/
def shuffleGo : Nat → Nat → List Team → List Team
  | 0, _, l => l
  | fuel + 1, s, l =>
    match l with
    | [] => []
    | _ =>
      let (s2, i) := randBelow s l.length
      l.getD i default :: shuffleGo fuel s2 (l.eraseIdx i)

/-- Modelled from the spec: seeded shuffle of the team list. -/
def shuffle (s : Nat) (l : List Team) : List Team := shuffleGo l.length s l

/-- Consecutive pairing of a list. -/
def pairUp : List Team → List (Team × Team)
  | a :: b :: rest => (a, b) :: pairUp rest
  | _ => []

/-- Modelled from the spec: the missing backend tournament initialization —
fails unless exactly 8 teams are given, fails if the bracket is already Active
or Completed, otherwise randomly partitions the teams into the four
quarter-final pairs and sets the status Active. -/
def initBracket (teams : List Team) (b : EngineBracket) (seed : Nat) :
    Except String EngineBracket :=
  if teams.length ≠ 8 then Except.error "exactly 8 teams required"
  else if b.status = BracketStatus.active ∨ b.status = BracketStatus.completed then
    Except.error "tournament already started, reset first"
  else Except.ok ⟨BracketStatus.active, pairUp (shuffle seed teams)⟩

end Engine

/-! ### LiveStreamController (spec section 4.3).
Modelled from the spec: the backend streaming generator is not in the
repository snapshot. It runs the simulator once up front and replays the
materialized result as a paced event list: match_start first, then per
simulated minute a time_update, any whistle commentary and the goal events of
that minute, and a single terminal match_complete last. -/

namespace LiveStream

open Engine

/-- Whether a stream event is terminal (match_complete or error). -/
def isTerminal : StreamEvent → Bool
  | .matchComplete _ => true
  | .error _ => true
  | _ => false

/-- The simulated minute an event belongs to, with the terminal events placed
at the final minute d and match_start before minute 1. -/
def eventMinute (d : Nat) : StreamEvent → Nat
  | .matchStart => 0
  | .timeUpdate m => m
  | .commentary m _ _ => m
  | .goal m _ _ _ _ => m
  | .matchComplete _ => d
  | .error _ => d
  | .other => d

/-- Modelled from the spec: turn the ordered goal events into goal stream
events carrying the running score. -/
def goalStreamScan (t1id t1name t2name : String) :
    List GoalEvent → Nat → Nat → List StreamEvent
  | [], _, _ => []
  | ev :: rest, a, b =>
    let a2 := if ev.scoringTeamId == t1id then a + 1 else a
    let b2 := if ev.scoringTeamId == t1id then b else b + 1
    StreamEvent.goal ev.minute (if ev.scoringTeamId == t1id then t1name else t2name)
        ev.scoringTeamId ev.scorerName ⟨a2, b2⟩ ::
      goalStreamScan t1id t1name t2name rest a2 b2

/-- Modelled from the spec: template whistle commentary at kickoff, half time,
the second half and full time. -/
def commentaryAt (d m : Nat) : List StreamEvent :=
  (if m = 1 then [StreamEvent.commentary 1 "The referee blows the whistle and we are underway" (some "kickoff")] else []) ++
  (if m = 45 then [StreamEvent.commentary 45 "Half time" (some "halftime")] else []) ++
  (if m = 46 then [StreamEvent.commentary 46 "The second half begins" (some "second_half")] else []) ++
  (if m = d then [StreamEvent.commentary d "Full time" (some "fulltime")] else [])

/-- Whether a goal stream event belongs to minute m. -/
def isGoalAt (m : Nat) : StreamEvent → Bool
  | .goal m2 _ _ _ _ => m2 == m
  | _ => false

/-- Modelled from the spec: everything the stream emits for one simulated
minute — the time_update, any whistle commentary, and that minute's goals. -/
def minuteBlock (goals : List StreamEvent) (d m : Nat) : List StreamEvent :=
  StreamEvent.timeUpdate m :: (commentaryAt d m ++ goals.filter (isGoalAt m))

/-- The match_complete payload of the wire contract built from a MatchResult. -/
def toClientResult (r : MatchResult) : ClientMatchResult :=
  { team1 := r.team1
    team2 := r.team2
    team1_goals := r.team1Goals
    team2_goals := r.team2Goals
    score := toString r.team1Goals ++ "-" ++ toString r.team2Goals
    winner := if r.winnerTeamId == r.team1.id then r.team1 else r.team2
    goal_scorers := r.goalEvents.map (fun ev =>
      ⟨ev.minute, ev.scorerName,
       if ev.scoringTeamId == r.team1.id then r.team1.country else r.team2.country⟩)
    penalties := r.wentToPenalties }

/-- Modelled from the spec: the replay lasts 120 simulated minutes when
regulation ended level (extra time was played), 90 otherwise. -/
def matchDuration (t1 t2 : Team) (seed : Nat) : Nat :=
  if (afterRegulation t1 t2 seed).g1 = (afterRegulation t1 t2 seed).g2 then 120 else 90

/-- Modelled from the spec: the per-minute part of the stream. -/
def liveTimeline (t1 t2 : Team) (seed : Nat) : List StreamEvent :=
  (List.range' 1 (matchDuration t1 t2 seed)).flatMap
    (minuteBlock
      (goalStreamScan t1.id t1.country t2.country (simulate t1 t2 seed).goalEvents 0 0)
      (matchDuration t1 t2 seed))

/-- Modelled from the spec: the whole event stream of one live match. -/
def liveStream (t1 t2 : Team) (seed : Nat) : List StreamEvent :=
  StreamEvent.matchStart ::
    (liveTimeline t1 t2 seed ++
     [StreamEvent.matchComplete (toClientResult (simulate t1 t2 seed))])

end LiveStream

/-! ### The quick-simulation request contract (App.js, simulateMatch) -/

/-- The JSON body App.js posts to /matches/simulate: only the two team ids and
the match type. -/
structure SimulateRequestBody where
  team1_id : String
  team2_id : String
  match_type : String
deriving DecidableEq

/-- Build the quick-simulation request from its three fields. -/
def mkSimulateRequest (team1Id team2Id matchType : String) : SimulateRequestBody :=
  ⟨team1Id, team2Id, matchType⟩

/-! ### Concrete inputs used by witnesses and counterexamples -/

/-- A 23-player roster with one goalkeeper and exactly one captain. -/
def demoPlayers : List Player :=
  (List.range 23).map (fun i =>
    ⟨"Player" ++ toString i,
     if i = 0 then "GK" else if i < 9 then "DF" else if i < 17 then "MD" else "AT",
     i = 1⟩)

/-- A fully registered strong team. -/
def demoTeamA : Team := ⟨"t1", "Nigeria", "M. Obi", "R. Eze", "a@b.cd", 90, demoPlayers⟩

/-- A fully registered weaker team. -/
def demoTeamB : Team := ⟨"t2", "Ghana", "K. Mensah", "A. Owusu", "c@d.ef", 40, demoPlayers⟩

/-- A valid registration form. -/
def demoForm : TeamRegistration.RegistrationForm :=
  ⟨"Nigeria", "Jose", "Amina", "a@b.cd", demoPlayers⟩

/-- Nine registered teams: more than the bracket holds. -/
def demoNineTeams : List Team := List.replicate 9 demoTeamA

/-- Eight registered teams. -/
def demoEightTeams : List Team := List.replicate 8 demoTeamA

/-- A client bracket whose status is completed. -/
def demoCompletedBracket : ClientBracket := ⟨"completed", [], [], none⟩

/-! ## Theorems -/

/-- Claim C9: for every non-negative minute m, the live-match time formatter
renders m followed by an apostrophe when m is at most 90, and 90+k followed by
an apostrophe with k = m - 90 when m exceeds 90. -/
theorem formatTime_spec :
    (∀ m : Nat,
      (m ≤ 90 → LiveMatchSimulation.formatTime m = (toString m).push tick) ∧
      (90 < m → LiveMatchSimulation.formatTime m = ("90+" ++ toString (m - 90)).push tick)) ∧
    LiveMatchSimulation.formatTime 90 = String.push "90" tick ∧
    LiveMatchSimulation.formatTime 95 = String.push "90+5" tick := by
  refine ⟨fun m => ⟨fun h => ?_, fun h => ?_⟩, rfl, rfl⟩
  · simp [LiveMatchSimulation.formatTime, h]
  · simp [LiveMatchSimulation.formatTime, Nat.not_le.mpr h]

/-- Claim C10: administrator login succeeds exactly on the credentials
admin / admin123; success persists the flag in localStorage so a reload stays
authenticated until logout removes it, and failure only shows the message
Invalid credentials, leaving the authentication state and storage unchanged. -/
theorem admin_login_spec :
    (∀ (creds : AdminPanel.Credentials) (st : AdminPanel.AuthState),
      creds.username = "admin" ∧ creds.password = "admin123" →
        AdminPanel.handleLogin creds st =
          { isAuthenticated := true, errorMsg := "", storage := some "true" }) ∧
    (∀ (creds : AdminPanel.Credentials) (st : AdminPanel.AuthState),
      ¬(creds.username = "admin" ∧ creds.password = "admin123") →
        AdminPanel.handleLogin creds st = { st with errorMsg := "Invalid credentials" }) ∧
    (∀ (creds : AdminPanel.Credentials) (st : AdminPanel.AuthState),
      creds.username = "admin" ∧ creds.password = "admin123" →
        AdminPanel.initialIsAuthenticated (AdminPanel.handleLogin creds st).storage = true) ∧
    (∀ st : AdminPanel.AuthState,
      (AdminPanel.handleLogout st).isAuthenticated = false ∧
      AdminPanel.initialIsAuthenticated (AdminPanel.handleLogout st).storage = false) := by
  refine ⟨fun creds st h => ?_, fun creds st h => ?_, fun creds st h => ?_,
    fun st => ⟨rfl, rfl⟩⟩
  · simp [AdminPanel.handleLogin, h.1, h.2]
  · have hb : (creds.username == "admin" && creds.password == "admin123") = false := by
      rcases Decidable.not_and_iff_or_not.mp h with h1 | h1 <;> simp [h1]
    simp [AdminPanel.handleLogin, hb]
  · simp [AdminPanel.handleLogin, h.1, h.2, AdminPanel.initialIsAuthenticated]

/-- Claim C5: a bracket slot is playable — and the administrator is offered
Quick Sim / Live Sim for it — exactly when both team references are populated
and no winner is recorded; a slot with a winner and a slot missing a team are
never playable nor offered. -/
theorem slot_playable_iff_teams_and_no_winner :
    ∀ m : BracketMatch,
      (TournamentBracket.isPlayable m = true ↔
        (m.team1.isSome = true ∧ m.team2.isSome = true ∧ m.winner = none)) ∧
      AdminPanel.adminMatchActionable m = TournamentBracket.isPlayable m ∧
      (m.winner.isSome = true →
        TournamentBracket.isPlayable m = false ∧ AdminPanel.adminMatchActionable m = false) ∧
      ((m.team1 = none ∨ m.team2 = none) →
        TournamentBracket.isPlayable m = false ∧ AdminPanel.adminMatchActionable m = false) := by
  intro m
  obtain ⟨o1, o2, ow, os⟩ := m
  refine ⟨?_, ?_, ?_, ?_⟩
  · cases o1 <;> cases o2 <;> cases ow <;>
      simp [TournamentBracket.isPlayable, TournamentBracket.hasTeams,
        TournamentBracket.isCompleted]
  · cases o1 <;> cases o2 <;> cases ow <;>
      simp [TournamentBracket.isPlayable, TournamentBracket.hasTeams,
        TournamentBracket.isCompleted, AdminPanel.adminMatchActionable]
  · intro hw
    cases ow with
    | none => simp at hw
    | some w =>
      cases o1 <;> cases o2 <;>
        simp [TournamentBracket.isPlayable, TournamentBracket.hasTeams,
          TournamentBracket.isCompleted, AdminPanel.adminMatchActionable]
  · intro hmiss
    rcases hmiss with h | h <;> subst h <;> cases ow <;>
      simp [TournamentBracket.isPlayable, TournamentBracket.hasTeams,
        TournamentBracket.isCompleted, AdminPanel.adminMatchActionable]

/-- Claim C7: processing a goal stream event sets the displayed score to
exactly the event's score, appends exactly one match-event record carrying the
event's minute, team, scorer and team id, and leaves the commentary feed and
the match-time state unchanged. -/
theorem goal_event_updates_score_and_events_only :
    ∀ (st : LiveMatchSimulation.LiveState) (m : Nat) (team teamId scorer : String)
      (sc : StreamScore),
      LiveMatchSimulation.handleStreamEvent st (StreamEvent.goal m team teamId scorer sc) =
        { st with score := sc, events := st.events ++ [⟨m, "goal", team, scorer, teamId⟩] } ∧
      (LiveMatchSimulation.handleStreamEvent st
        (StreamEvent.goal m team teamId scorer sc)).commentary = st.commentary ∧
      (LiveMatchSimulation.handleStreamEvent st
        (StreamEvent.goal m team teamId scorer sc)).matchTime = st.matchTime ∧
      (LiveMatchSimulation.handleStreamEvent st
        (StreamEvent.goal m team teamId scorer sc)).score = sc ∧
      (LiveMatchSimulation.handleStreamEvent st
        (StreamEvent.goal m team teamId scorer sc)).events =
          st.events ++ [⟨m, "goal", team, scorer, teamId⟩] :=
  fun _ _ _ _ _ _ => ⟨rfl, rfl, rfl, rfl, rfl⟩

set_option maxRecDepth 100000 in
/-- Claim C1: the spec-modelled simulator is a function of (team1, team2,
rng_seed) — identical argument triples give identical MatchResults — the
quick-simulation request body consists of nothing but team1_id, team2_id and
match_type, and two simulations that agree on everything the request carries
can still differ, so the promised determinism is not reachable through the
request contract. -/
theorem simulate_deterministic_and_request_carries_no_seed :
    (∀ (t1 t2 : Team) (s1 s2 : Nat), s1 = s2 →
      Engine.simulate t1 t2 s1 = Engine.simulate t1 t2 s2) ∧
    (∀ r : SimulateRequestBody, r = mkSimulateRequest r.team1_id r.team2_id r.match_type) ∧
    Engine.simulate demoTeamA demoTeamB 1 ≠ Engine.simulate demoTeamA demoTeamB 2 :=
  ⟨fun _ _ _ _ h => by rw [h], fun _ => rfl, by decide⟩

/-- Claim C4: the registration form is posted to the server only when the
roster has exactly 23 players with exactly one captain, the country, manager
and representative are given, and the email passes the well-formedness test;
any other submission is rejected by validateForm before the request is made. -/
theorem registration_posts_only_valid_roster :
    ∀ f p : TeamRegistration.RegistrationForm,
      TeamRegistration.handleSubmit f = some p →
        p = f ∧ f.players.length = 23 ∧
        (f.players.filter (·.isCaptain)).length = 1 ∧
        f.country ≠ "" ∧ f.manager ≠ "" ∧ f.representative ≠ "" ∧ f.email ≠ "" ∧
        TeamRegistration.emailTest f.email = true := by
  intro f p h
  unfold TeamRegistration.handleSubmit at h
  split at h
  case isTrue hv =>
    simp only [TeamRegistration.validateForm, Bool.and_eq_true, bne_iff_ne,
      beq_iff_eq] at hv
    refine ⟨(Option.some.inj h).symm, ?_, ?_, ?_, ?_, ?_, ?_, ?_⟩ <;> tauto
  case isFalse => exact absurd h (by simp)

/-- Witness for claim C4 at a concrete valid registration form. -/
theorem registration_posts_only_valid_roster_witness :
    demoForm = demoForm ∧ demoForm.players.length = 23 ∧
    (demoForm.players.filter (·.isCaptain)).length = 1 ∧
    demoForm.country ≠ "" ∧ demoForm.manager ≠ "" ∧ demoForm.representative ≠ "" ∧
    demoForm.email ≠ "" ∧ TeamRegistration.emailTest demoForm.email = true :=
  registration_posts_only_valid_roster demoForm demoForm (by decide)

/-- Claim C2 fails on the code: with nine registered teams and no bracket the
Start Tournament action is offered even though the team count is not exactly 8,
and with a completed bracket it is offered again because only the status
active is checked. -/
theorem start_offered_not_exactly_eight_counterexample :
    AdminPanel.startTournamentOffered demoNineTeams none = true ∧
    demoNineTeams.length ≠ 8 ∧
    AdminPanel.startTournamentOffered demoEightTeams (some demoCompletedBracket) = true :=
  ⟨by decide, by decide, by decide⟩

/-- Claim C2 amended: the spec-modelled backend initialization still fails
unless exactly 8 teams are registered and the bracket is not already Active or
Completed, but the client offers the Start Tournament action whenever at least
8 teams are registered and the bracket status is not active — a surplus of
teams or a completed bracket does not suppress the offer. -/
theorem initBracket_eight_and_start_offered_amended :
    (∀ (teams : List Team) (b : Engine.EngineBracket) (seed : Nat)
      (b2 : Engine.EngineBracket),
      Engine.initBracket teams b seed = Except.ok b2 →
        teams.length = 8 ∧ b.status = Engine.BracketStatus.notStarted) ∧
    (∀ (teams : List Team) (bracket : Option ClientBracket),
      AdminPanel.startTournamentOffered teams bracket = true ↔
        (8 ≤ teams.length ∧ AdminPanel.tournamentActive bracket = false)) := by
  constructor
  · intro teams b seed b2 h
    unfold Engine.initBracket at h
    split at h
    case isTrue => exact absurd h (by simp)
    case isFalse hlen =>
      split at h
      case isTrue => exact absurd h (by simp)
      case isFalse hst =>
        refine ⟨Decidable.not_not.mp hlen, ?_⟩
        cases hb : b.status with
        | notStarted => rfl
        | active => exact absurd (Or.inl hb) hst
        | completed => exact absurd (Or.inr hb) hst
  · intro teams bracket
    simp [AdminPanel.startTournamentOffered, AdminPanel.canStartTournament]

/-- Sudden death entered on level scores always produces a strict leader. -/
theorem suddenDeath_ne :
    ∀ (fuel s p1 p2 : Nat), p1 = p2 →
      (Engine.suddenDeath fuel s p1 p2).1 ≠ (Engine.suddenDeath fuel s p1 p2).2 := by
  intro fuel
  induction fuel with
  | zero =>
    intro s p1 p2 h
    subst h
    cases hv : (Engine.randBelow s 2).2 == 0 <;> simp [Engine.suddenDeath, hv]
  | succ n ih =>
    intro s p1 p2 h
    subst h
    simp only [Engine.suddenDeath]
    cases hab : (Engine.kickSuccess s).2 == (Engine.kickSuccess (Engine.kickSuccess s).1).2
    · have hne : (Engine.kickSuccess s).2 ≠ (Engine.kickSuccess (Engine.kickSuccess s).1).2 := by
        simpa using hab
      cases h2 : (Engine.kickSuccess s).2 <;>
        cases h3 : (Engine.kickSuccess (Engine.kickSuccess s).1).2 <;>
          simp_all [Bool.toNat]
    · have heq : (Engine.kickSuccess s).2 = (Engine.kickSuccess (Engine.kickSuccess s).1).2 := by
        simpa using hab
      simpa [hab] using ih (Engine.kickSuccess (Engine.kickSuccess s).1).1 _ _ (by rw [heq])

/-- The full shootout always produces a strict leader. -/
theorem shootout_ne : ∀ s : Nat, (Engine.shootout s).1 ≠ (Engine.shootout s).2 := by
  intro s
  unfold Engine.shootout
  split
  case isTrue h => exact suddenDeath_ne 100 _ _ _ h
  case isFalse h => simpa using h

/-- Goal stream events are never terminal. -/
theorem isTerminal_goalStreamScan :
    ∀ (t1id n1 n2 : String) (l : List Engine.GoalEvent) (a b : Nat) (e : StreamEvent),
      e ∈ LiveStream.goalStreamScan t1id n1 n2 l a b → LiveStream.isTerminal e = false := by
  intro t1id n1 n2 l
  induction l with
  | nil => intro a b e h; simp [LiveStream.goalStreamScan] at h
  | cons ev rest ih =>
    intro a b e h
    simp only [LiveStream.goalStreamScan, List.mem_cons] at h
    rcases h with h | h
    · subst h; rfl
    · exact ih _ _ e h

/-- Whistle commentary events are never terminal. -/
theorem isTerminal_commentaryAt :
    ∀ (d m : Nat) (e : StreamEvent),
      e ∈ LiveStream.commentaryAt d m → LiveStream.isTerminal e = false := by
  intro d m e h
  simp only [LiveStream.commentaryAt, List.mem_append] at h
  rcases h with ((h | h) | h) | h <;> split at h <;>
    simp only [List.mem_singleton, List.not_mem_nil] at h <;>
      first
        | exact absurd h (by simp)
        | (subst h; rfl)

/-- No event of a per-minute block is terminal when the goal events are not. -/
theorem isTerminal_minuteBlock :
    ∀ (goals : List StreamEvent) (d m : Nat) (e : StreamEvent),
      (∀ x ∈ goals, LiveStream.isTerminal x = false) →
      e ∈ LiveStream.minuteBlock goals d m → LiveStream.isTerminal e = false := by
  intro goals d m e hg h
  simp only [LiveStream.minuteBlock, List.mem_cons, List.mem_append] at h
  rcases h with h | h | h
  · subst h; rfl
  · exact isTerminal_commentaryAt d m e h
  · exact hg e (List.mem_filter.mp h).1

/-- No event of the per-minute timeline is terminal. -/
theorem isTerminal_liveTimeline :
    ∀ (t1 t2 : Team) (seed : Nat) (e : StreamEvent),
      e ∈ LiveStream.liveTimeline t1 t2 seed → LiveStream.isTerminal e = false := by
  intro t1 t2 seed e h
  simp only [LiveStream.liveTimeline, List.mem_flatMap] at h
  obtain ⟨m, _, hmem⟩ := h
  exact isTerminal_minuteBlock _ _ m e
    (fun x hx => isTerminal_goalStreamScan _ _ _ _ _ _ x hx) hmem

/-- Every event of a per-minute block carries that block's minute. -/
theorem eventMinute_minuteBlock :
    ∀ (goals : List StreamEvent) (d m : Nat) (e : StreamEvent),
      e ∈ LiveStream.minuteBlock goals d m → LiveStream.eventMinute d e = m := by
  intro goals d m e h
  simp only [LiveStream.minuteBlock, List.mem_cons, List.mem_append] at h
  rcases h with h | h | h
  · subst h; rfl
  · simp only [LiveStream.commentaryAt, List.mem_append] at h
    rcases h with ((h | h) | h) | h <;> split at h <;>
      simp only [List.mem_singleton, List.not_mem_nil] at h <;>
        first
          | exact absurd h (by simp)
          | (subst h; simp_all [LiveStream.eventMinute])
  · have hm := (List.mem_filter.mp h).2
    cases e <;> simp [LiveStream.isGoalAt] at hm
    simpa [LiveStream.eventMinute] using hm

/-- Blocks of ascending minutes concatenate to a minute-sorted event list. -/
theorem pairwise_minutes_flatMap :
    ∀ (d : Nat) (ms : List Nat) (f : Nat → List StreamEvent),
      (∀ m e, e ∈ f m → LiveStream.eventMinute d e = m) →
      ms.Pairwise (· ≤ ·) →
      (ms.flatMap f).Pairwise
        (fun a b => LiveStream.eventMinute d a ≤ LiveStream.eventMinute d b) := by
  intro d ms f hf
  induction ms with
  | nil => intro _; simp
  | cons m rest ih =>
    intro hp
    rw [List.flatMap_cons, List.pairwise_append]
    refine ⟨?_, ih (List.pairwise_cons.mp hp).2, ?_⟩
    · exact List.pairwise_of_forall_mem_list
        (fun a ha b hb => by rw [hf m a ha, hf m b hb])
    · intro a ha b hb
      rw [hf m a ha]
      obtain ⟨m2, hm2, hb2⟩ := List.mem_flatMap.mp hb
      rw [hf m2 b hb2]
      exact List.rel_of_pairwise_cons hp hm2

/-- The minutes of the timeline are bounded by the match duration, and its
minute sequence is sorted. -/
theorem liveTimeline_sorted_and_bounded :
    ∀ (t1 t2 : Team) (seed : Nat),
      (LiveStream.liveTimeline t1 t2 seed).Pairwise
        (fun a b => LiveStream.eventMinute (LiveStream.matchDuration t1 t2 seed) a ≤
          LiveStream.eventMinute (LiveStream.matchDuration t1 t2 seed) b) ∧
      (∀ e ∈ LiveStream.liveTimeline t1 t2 seed,
        LiveStream.eventMinute (LiveStream.matchDuration t1 t2 seed) e ≤
          LiveStream.matchDuration t1 t2 seed) := by
  intro t1 t2 seed
  constructor
  · exact pairwise_minutes_flatMap _ _ _
      (fun m e he => eventMinute_minuteBlock _ _ m e he)
      ((List.pairwise_lt_range' 1 (LiveStream.matchDuration t1 t2 seed)).imp
        (fun h => Nat.le_of_lt h))
  · intro e he
    simp only [LiveStream.liveTimeline, List.mem_flatMap] at he
    obtain ⟨m, hm, hmem⟩ := he
    rw [eventMinute_minuteBlock _ _ m e hmem]
    have := List.mem_range'_1.mp hm
    omega

/-- A match decided on goals satisfies the MatchResult invariants. -/
theorem finishOnGoals_invariants (t1 t2 : Team) (st : Engine.SimState)
    (h : st.g1 ≠ st.g2) :
    ((Engine.finishOnGoals t1 t2 st).winnerTeamId = t1.id ∨
      (Engine.finishOnGoals t1 t2 st).winnerTeamId = t2.id) ∧
    ((Engine.finishOnGoals t1 t2 st).team1Goals = (Engine.finishOnGoals t1 t2 st).team2Goals →
      (Engine.finishOnGoals t1 t2 st).wentToPenalties = true) ∧
    ((Engine.finishOnGoals t1 t2 st).wentToPenalties = true →
      (Engine.finishOnGoals t1 t2 st).team1Goals = (Engine.finishOnGoals t1 t2 st).team2Goals ∧
      ∃ p1 p2 : Nat,
        (Engine.finishOnGoals t1 t2 st).penaltyScore = some (p1, p2) ∧ p1 ≠ p2 ∧
        (Engine.finishOnGoals t1 t2 st).winnerTeamId = (if p2 < p1 then t1.id else t2.id)) := by
  refine ⟨?_, fun hg => absurd hg h, fun hp => by simp [Engine.finishOnGoals] at hp⟩
  simp only [Engine.finishOnGoals]
  split
  · exact Or.inl rfl
  · exact Or.inr rfl

/-- A match resolved on penalties satisfies the MatchResult invariants. -/
theorem finishOnPenalties_invariants (t1 t2 : Team) (st : Engine.SimState)
    (h : st.g1 = st.g2) :
    ((Engine.finishOnPenalties t1 t2 st).winnerTeamId = t1.id ∨
      (Engine.finishOnPenalties t1 t2 st).winnerTeamId = t2.id) ∧
    ((Engine.finishOnPenalties t1 t2 st).team1Goals =
        (Engine.finishOnPenalties t1 t2 st).team2Goals →
      (Engine.finishOnPenalties t1 t2 st).wentToPenalties = true) ∧
    ((Engine.finishOnPenalties t1 t2 st).wentToPenalties = true →
      (Engine.finishOnPenalties t1 t2 st).team1Goals =
        (Engine.finishOnPenalties t1 t2 st).team2Goals ∧
      ∃ p1 p2 : Nat,
        (Engine.finishOnPenalties t1 t2 st).penaltyScore = some (p1, p2) ∧ p1 ≠ p2 ∧
        (Engine.finishOnPenalties t1 t2 st).winnerTeamId =
          (if p2 < p1 then t1.id else t2.id)) := by
  simp only [Engine.finishOnPenalties]
  refine ⟨?_, fun _ => by trivial, fun _ => ⟨h, (Engine.shootout st.rng).1,
    (Engine.shootout st.rng).2, by rw [Prod.mk.eta], shootout_ne st.rng, by trivial⟩⟩
  split
  · exact Or.inl rfl
  · exact Or.inr rfl

/-- Claim C3: cancelling a live stream only clears the local display state and
issues no save request — the result is discarded and the bracket untouched —
while only the match-complete handler posts the result to the
save-live-result endpoint; a stream cut off before its end delivers no
terminal match_complete event. -/
theorem cancel_is_frame_noop_only_complete_saves :
    (∀ st : AdminPanel.LivePanelState,
      AdminPanel.handleCancelLiveMatch st =
        ({ showLiveMatch := false, selectedMatch := none }, [])) ∧
    (∀ (mr : ClientMatchResult) (st : AdminPanel.LivePanelState),
      (AdminPanel.handleLiveMatchComplete mr st).2 =
        [AdminPanel.ApiRequest.saveLiveResult
          ⟨mr.team1, mr.team2, mr.team1_goals, mr.team2_goals, mr.score, mr.winner,
           mr.goal_scorers, AdminPanel.matchTypeOf st.selectedMatch⟩]) ∧
    (∀ (t1 t2 : Team) (seed k : Nat),
      k < (LiveStream.liveStream t1 t2 seed).length →
      ∀ e ∈ (LiveStream.liveStream t1 t2 seed).take k, LiveStream.isTerminal e = false) := by
  refine ⟨fun _ => rfl, fun _ _ => rfl, ?_⟩
  intro t1 t2 seed k hk e he
  have hlen : k ≤ (StreamEvent.matchStart :: LiveStream.liveTimeline t1 t2 seed).length := by
    have h2 : (LiveStream.liveStream t1 t2 seed).length =
        (StreamEvent.matchStart :: LiveStream.liveTimeline t1 t2 seed).length + 1 := by
      rw [LiveStream.liveStream, ← List.cons_append, List.length_append]
      simp
    omega
  rw [LiveStream.liveStream, ← List.cons_append,
    List.take_append_of_le_length hlen] at he
  rcases List.mem_cons.mp (List.mem_of_mem_take he) with h | h
  · subst h; rfl
  · exact isTerminal_liveTimeline t1 t2 seed e h

/-- Claim C6: the live stream begins with match_start, its events are ordered
by simulated minute, and it ends with exactly one terminal event (here
match_complete) after which nothing follows; in the client, processing
match_complete or error sets the playing state false, no stream event ever
turns it back on, and only starting a new stream does. -/
theorem stream_ordering_and_terminal_playing_state :
    (∀ (t1 t2 : Team) (seed : Nat),
      (LiveStream.liveStream t1 t2 seed).head? = some StreamEvent.matchStart) ∧
    (∀ (t1 t2 : Team) (seed : Nat),
      (LiveStream.liveStream t1 t2 seed).getLast? =
        some (StreamEvent.matchComplete
          (LiveStream.toClientResult (Engine.simulate t1 t2 seed)))) ∧
    (∀ (t1 t2 : Team) (seed : Nat),
      (LiveStream.liveStream t1 t2 seed).countP LiveStream.isTerminal = 1) ∧
    (∀ (t1 t2 : Team) (seed : Nat),
      (LiveStream.liveStream t1 t2 seed).Pairwise
        (fun a b => LiveStream.eventMinute (LiveStream.matchDuration t1 t2 seed) a ≤
          LiveStream.eventMinute (LiveStream.matchDuration t1 t2 seed) b)) ∧
    (∀ (st : LiveMatchSimulation.LiveState) (r : ClientMatchResult),
      (LiveMatchSimulation.handleStreamEvent st (StreamEvent.matchComplete r)).isPlaying =
        false) ∧
    (∀ (st : LiveMatchSimulation.LiveState) (msg : String),
      (LiveMatchSimulation.handleStreamEvent st (StreamEvent.error msg)).isPlaying = false) ∧
    (∀ (st : LiveMatchSimulation.LiveState) (e : StreamEvent),
      st.isPlaying = false →
      (LiveMatchSimulation.handleStreamEvent st e).isPlaying = false) ∧
    (∀ st : LiveMatchSimulation.LiveState,
      (LiveMatchSimulation.connectToLiveStreamStart st).isPlaying = true) := by
  refine ⟨fun _ _ _ => rfl, ?_, ?_, ?_, fun _ _ => rfl, fun _ _ => rfl, ?_, fun _ => rfl⟩
  · intro t1 t2 seed
    rw [LiveStream.liveStream, ← List.cons_append, List.getLast?_concat]
  · intro t1 t2 seed
    rw [LiveStream.liveStream, ← List.cons_append, List.countP_append]
    have h0 : (StreamEvent.matchStart ::
        LiveStream.liveTimeline t1 t2 seed).countP LiveStream.isTerminal = 0 := by
      refine List.countP_eq_zero.mpr ?_
      intro a ha
      rcases List.mem_cons.mp ha with h | h
      · subst h; simp [LiveStream.isTerminal]
      · simp [isTerminal_liveTimeline t1 t2 seed a h]
    rw [h0]
    rfl
  · intro t1 t2 seed
    rw [LiveStream.liveStream]
    rw [List.pairwise_cons]
    constructor
    · intro b _
      have : LiveStream.eventMinute (LiveStream.matchDuration t1 t2 seed)
          StreamEvent.matchStart = 0 := rfl
      rw [this]
      exact Nat.zero_le _
    · rw [List.pairwise_append]
      refine ⟨(liveTimeline_sorted_and_bounded t1 t2 seed).1, by simp, ?_⟩
      intro a ha b hb
      rcases List.mem_singleton.mp hb with rfl
      exact (liveTimeline_sorted_and_bounded t1 t2 seed).2 a ha
  · intro st e h
    cases e <;> simp [LiveMatchSimulation.handleStreamEvent, h]

/-- Claim C8: every MatchResult the engine produces names one of the two team
ids as winner; a score still level after 90+30 minutes forces a penalty
shootout, and a shootout happens only on a level score and then determines the
winner from a strictly decided penalty score. -/
theorem simulate_winner_and_penalty_invariants :
    ∀ (t1 t2 : Team) (seed : Nat),
      ((Engine.simulate t1 t2 seed).winnerTeamId = t1.id ∨
        (Engine.simulate t1 t2 seed).winnerTeamId = t2.id) ∧
      ((Engine.simulate t1 t2 seed).team1Goals = (Engine.simulate t1 t2 seed).team2Goals →
        (Engine.simulate t1 t2 seed).wentToPenalties = true) ∧
      ((Engine.simulate t1 t2 seed).wentToPenalties = true →
        (Engine.simulate t1 t2 seed).team1Goals = (Engine.simulate t1 t2 seed).team2Goals ∧
        ∃ p1 p2 : Nat,
          (Engine.simulate t1 t2 seed).penaltyScore = some (p1, p2) ∧ p1 ≠ p2 ∧
          (Engine.simulate t1 t2 seed).winnerTeamId = (if p2 < p1 then t1.id else t2.id)) := by
  intro t1 t2 seed
  unfold Engine.simulate
  split
  case isTrue hreg =>
    split
    case isTrue hextra => exact finishOnPenalties_invariants t1 t2 _ hextra
    case isFalse hextra => exact finishOnGoals_invariants t1 t2 _ hextra
  case isFalse hreg => exact finishOnGoals_invariants t1 t2 _ hreg

end ANL
